import Mathlib

/-!
Verification of the long-term repair reserve calculator core.

Shallow embedding of the input-reconciliation and fee-derivation core of
the repository (src/App.tsx, src/types.ts, src/services/geminiService.ts).
JavaScript numbers are modelled as rationals (ℚ); year fields, which the
data model declares as optional integers, as `Option Int`; the fallible
derivation (`setResult(null)`) as `Option CalculationResult`.
-/

/-- Cost-basis mode, from src/types.ts: `'RATE' | 'AMOUNT'`. -/
inductive CalculationMode where
  | RATE
  | AMOUNT
deriving DecidableEq, Repr

/-- Period-entry mode, from src/types.ts: `'DURATION' | 'RANGE'`. -/
inductive PeriodInputMode where
  | DURATION
  | RANGE
deriving DecidableEq, Repr

/-- The input record, from src/types.ts `CalculationInputs`. -/
structure CalculationInputs where
  mode : CalculationMode
  periodInputMode : PeriodInputMode
  periodAmount : ℚ
  totalRepairCost : ℚ
  accumulationRate : ℚ
  durationMonths : ℚ
  startYear : Option Int
  endYear : Option Int
  totalComplexArea : ℚ
  householdArea : ℚ
deriving DecidableEq, Repr

/-- The derived record, from src/types.ts `CalculationResult`. -/
structure CalculationResult where
  monthlyTotalTarget : ℚ
  monthlyRatePerSqm : ℚ
  householdMonthlyFee : ℚ
  periodTargetAmount : ℚ
deriving DecidableEq, Repr

/-- JavaScript truthiness of an optional numeric field: `undefined` and `0`
are falsy, every other number is truthy (used by `if (newInputs.startYear)`
in src/App.tsx). -/
def jsTruthy : Option Int → Bool
  | none => false
  | some n => n != 0

/-- JavaScript `a || d` on an optional numeric field: falls through to the
default when the field is `undefined` or `0` (src/App.tsx lines 59-60). -/
def orYear : Option Int → Int → Int
  | none, d => d
  | some n, d => if n = 0 then d else n

/-- JavaScript `Math.round` on a (finite) number: round half toward
positive infinity, `⌊q + 1/2⌋`. -/
def jsRound (q : ℚ) : Int := ⌊q + 1 / 2⌋

/-- The fee derivation engine, from src/App.tsx `calculate` (lines 135-181),
with `setResult(null)` embedded as `none` and `setResult {...}` as `some`. -/
def calculate (i : CalculationInputs) : Option CalculationResult :=
  if i.durationMonths ≤ 0 ∨ i.totalComplexArea ≤ 0 ∨ i.householdArea ≤ 0 then
    none
  else
    let pta : Option ℚ :=
      match i.mode with
      | .RATE =>
          if i.totalRepairCost ≤ 0 ∨ i.accumulationRate ≤ 0 then none
          else some (i.totalRepairCost * (i.accumulationRate / 100))
      | .AMOUNT =>
          if i.periodAmount ≤ 0 then none
          else some i.periodAmount
    match pta with
    | none => none
    | some periodTargetAmount =>
        let monthlyTotalTarget := periodTargetAmount / i.durationMonths
        let monthlyRatePerSqm := monthlyTotalTarget / i.totalComplexArea
        let householdMonthlyFee := monthlyRatePerSqm * i.householdArea
        some {
          monthlyTotalTarget := monthlyTotalTarget
          monthlyRatePerSqm := monthlyRatePerSqm
          householdMonthlyFee := householdMonthlyFee
          periodTargetAmount := periodTargetAmount
        }

/-- Which field a generic input edit targets, with its new value (the
`field`/`value` pair taken by src/App.tsx `handleInputChange`; the year
fields are edited through `handlePeriodRangeChange` instead). -/
inductive FieldEdit where
  | mode (v : CalculationMode)
  | periodInputMode (v : PeriodInputMode)
  | periodAmount (v : ℚ)
  | totalRepairCost (v : ℚ)
  | accumulationRate (v : ℚ)
  | durationMonths (v : ℚ)
  | totalComplexArea (v : ℚ)
  | householdArea (v : ℚ)
deriving DecidableEq, Repr

/-- Generic input edit, from src/App.tsx `handleInputChange` (lines 37-54):
a plain field assignment, except that editing `durationMonths` also syncs
`endYear` from `startYear` when `startYear` is truthy. -/
def handleInputChange (prev : CalculationInputs) (e : FieldEdit) : CalculationInputs :=
  match e with
  | .mode v => { prev with mode := v }
  | .periodInputMode v => { prev with periodInputMode := v }
  | .periodAmount v => { prev with periodAmount := v }
  | .totalRepairCost v => { prev with totalRepairCost := v }
  | .accumulationRate v => { prev with accumulationRate := v }
  | .totalComplexArea v => { prev with totalComplexArea := v }
  | .householdArea v => { prev with householdArea := v }
  | .durationMonths v =>
      let newInputs := { prev with durationMonths := v }
      let durationInYears : Int := max 1 (jsRound (v / 12))
      if jsTruthy newInputs.startYear then
        { newInputs with
          endYear := some ((newInputs.startYear.getD 0) + durationInYears - 1) }
      else
        newInputs

/-- Which period-range boundary is being edited (`'start' | 'end'` in
src/App.tsx `handlePeriodRangeChange`). -/
inductive RangeSide where
  | start
  | stop
deriving DecidableEq, Repr

/-- Range-boundary edit, from src/App.tsx `handlePeriodRangeChange`
(lines 56-84). `currentYear` stands for `new Date().getFullYear()`. -/
def handlePeriodRangeChange (currentYear : Int) (prev : CalculationInputs)
    (side : RangeSide) (year : Int) : CalculationInputs :=
  let newStart0 := orYear prev.startYear currentYear
  let newEnd0 := orYear prev.endYear newStart0
  let resolved : Int × Int :=
    match side with
    | .start =>
        let newStart := year
        if newStart > newEnd0 then (newStart, newStart) else (newStart, newEnd0)
    | .stop =>
        let newEnd := year
        if newEnd < newStart0 then (newEnd, newEnd) else (newStart0, newEnd)
  { prev with
    startYear := some resolved.1
    endYear := some resolved.2
    durationMonths := ((resolved.2 - resolved.1 + 1 : Int) : ℚ) * 12 }

/-- The mode-dependent period target amount: the branch of src/App.tsx
`calculate` at lines 146-160 (`totalRepairCost * (accumulationRate / 100)`
in RATE mode, `periodAmount` in AMOUNT mode). -/
def periodTarget (i : CalculationInputs) : ℚ :=
  match i.mode with
  | .RATE => i.totalRepairCost * (i.accumulationRate / 100)
  | .AMOUNT => i.periodAmount

/-- One grounding citation returned by the lookup collaborator
(src/services/geminiService.ts). -/
structure SearchSource where
  title : String
  uri : String
deriving DecidableEq, Repr

/-- Response of `searchApartmentTotalArea`
(src/services/geminiService.ts line 77): on its own failure it resolves to
`{ totalArea: 0, householdArea: 0, found: false, sources: [] }`. -/
structure SearchResponse where
  totalArea : ℚ
  householdArea : ℚ
  found : Bool
  sources : List SearchSource
deriving DecidableEq, Repr

/-- The input-state-affecting part of src/App.tsx `handleAptSearch`
(lines 103-112): a found response writes each positive area into the
inputs through `handleInputChange`; anything else leaves them alone. -/
def applySearchResponse (inputs : CalculationInputs) (r : SearchResponse) :
    CalculationInputs :=
  if r.found then
    let i1 :=
      if r.totalArea > 0 then handleInputChange inputs (.totalComplexArea r.totalArea)
      else inputs
    if r.householdArea > 0 then handleInputChange i1 (.householdArea r.householdArea)
    else i1
  else inputs

/-- Advice request status, from src/types.ts `AdviceStatus`. -/
inductive AdviceStatus where
  | IDLE
  | LOADING
  | SUCCESS
  | ERROR
deriving DecidableEq, Repr

/-- The application state owned by src/App.tsx that the advice collaborator
can touch: the inputs, the derived result, and the advice display fields. -/
structure AppState where
  inputs : CalculationInputs
  result : Option CalculationResult
  advice : String
  adviceStatus : AdviceStatus
deriving DecidableEq, Repr

/-- Response processing of src/App.tsx `handleConsultAI` (lines 189-196):
a successful advice response stores the text, a failure stores a fixed
error message; neither branch touches `inputs` or `result`. -/
def applyAdviceResponse (s : AppState) (r : Except String String) : AppState :=
  match r with
  | .ok text => { s with advice := text, adviceStatus := .SUCCESS }
  | .error _ =>
      { s with advice := "오류가 발생했습니다. 잠시 후 다시 시도해주세요.",
               adviceStatus := .ERROR }

/-- The RATE-mode formula-correctness example input set of the spec. -/
def rateExample : CalculationInputs :=
  { mode := .RATE, periodInputMode := .DURATION, periodAmount := 0,
    totalRepairCost := 10000000000, accumulationRate := 20,
    durationMonths := 60, startYear := some 2025, endYear := some 2029,
    totalComplexArea := 150000, householdArea := 849 / 10 }

/-- The AMOUNT-mode counterpart of `rateExample`: same period and areas,
`periodAmount` equal to the RATE example's period target. -/
def amountExample : CalculationInputs :=
  { rateExample with mode := .AMOUNT, periodAmount := 2000000000,
                     totalRepairCost := 0, accumulationRate := 0 }

/-- A RANGE-mode input state holding the spec's 2025-2030 example range. -/
def rangeExample : CalculationInputs :=
  { mode := .RATE, periodInputMode := .RANGE, periodAmount := 0,
    totalRepairCost := 10000000000, accumulationRate := 20,
    durationMonths := 72, startYear := some 2025, endYear := some 2030,
    totalComplexArea := 150000, householdArea := 849 / 10 }

/-- An input state whose area fields are still blank (zero). -/
def blankAreasExample : CalculationInputs :=
  { rateExample with totalComplexArea := 0, householdArea := 0 }

/-- An application state wrapping `rateExample`. -/
def exampleAppState : AppState :=
  { inputs := rateExample, result := calculate rateExample,
    advice := "", adviceStatus := .IDLE }

section Theorems

attribute [local semireducible] Rat.mul Rat.inv Rat.add Rat.sub

/-- Helper: on inputs satisfying every precondition, `calculate` returns the
four-step pipeline built on `periodTarget`. -/
lemma calculate_spec (i : CalculationInputs)
    (hd : 0 < i.durationMonths) (ha : 0 < i.totalComplexArea)
    (hh : 0 < i.householdArea)
    (hr : i.mode = .RATE → 0 < i.totalRepairCost ∧ 0 < i.accumulationRate)
    (hp : i.mode = .AMOUNT → 0 < i.periodAmount) :
    calculate i = some
      { monthlyTotalTarget := periodTarget i / i.durationMonths
        monthlyRatePerSqm := periodTarget i / i.durationMonths / i.totalComplexArea
        householdMonthlyFee :=
          periodTarget i / i.durationMonths / i.totalComplexArea * i.householdArea
        periodTargetAmount := periodTarget i } := by
  have hcond : ¬(i.durationMonths ≤ 0 ∨ i.totalComplexArea ≤ 0 ∨ i.householdArea ≤ 0) := by
    push_neg
    exact ⟨hd, ha, hh⟩
  unfold calculate
  rw [if_neg hcond]
  cases hm : i.mode with
  | RATE =>
      obtain ⟨h1, h2⟩ := hr hm
      have hok : ¬(i.totalRepairCost ≤ 0 ∨ i.accumulationRate ≤ 0) := by
        push_neg
        exact ⟨h1, h2⟩
      simp only [periodTarget, hm, if_neg hok]
  | AMOUNT =>
      have hok : ¬(i.periodAmount ≤ 0) := not_le.mpr (hp hm)
      simp only [periodTarget, hm, if_neg hok]

/-- Helper: whenever any precondition fails, `calculate` returns `none`. -/
lemma calculate_none_spec (i : CalculationInputs)
    (h : i.durationMonths ≤ 0 ∨ i.totalComplexArea ≤ 0 ∨ i.householdArea ≤ 0
       ∨ (i.mode = .RATE ∧ (i.totalRepairCost ≤ 0 ∨ i.accumulationRate ≤ 0))
       ∨ (i.mode = .AMOUNT ∧ i.periodAmount ≤ 0)) :
    calculate i = none := by
  unfold calculate
  rcases h with h | h | h | ⟨hm, h⟩ | ⟨hm, h⟩
  · rw [if_pos (Or.inl h)]
  · rw [if_pos (Or.inr (Or.inl h))]
  · rw [if_pos (Or.inr (Or.inr h))]
  · split
    · rfl
    · simp only [hm, if_pos h]
  · split
    · rfl
    · simp only [hm, if_pos h]

/-- C1: on every input satisfying the preconditions, the derivation returns
a result whose `periodTargetAmount` is `totalRepairCost * (accumulationRate
/ 100)` in RATE mode and `periodAmount` in AMOUNT mode, with
`monthlyTotalTarget = periodTargetAmount / durationMonths`,
`monthlyRatePerSqm = monthlyTotalTarget / totalComplexArea`, and
`householdMonthlyFee = monthlyRatePerSqm * householdArea`. -/
theorem calculate_formula_correct (i : CalculationInputs)
    (hd : 0 < i.durationMonths) (ha : 0 < i.totalComplexArea)
    (hh : 0 < i.householdArea)
    (hr : i.mode = .RATE → 0 < i.totalRepairCost ∧ 0 < i.accumulationRate)
    (hp : i.mode = .AMOUNT → 0 < i.periodAmount) :
    calculate i = some
      { monthlyTotalTarget := periodTarget i / i.durationMonths
        monthlyRatePerSqm := periodTarget i / i.durationMonths / i.totalComplexArea
        householdMonthlyFee :=
          periodTarget i / i.durationMonths / i.totalComplexArea * i.householdArea
        periodTargetAmount := periodTarget i } :=
  calculate_spec i hd ha hh hr hp

/-- Witness for C1: the spec's RATE-mode example (`totalRepairCost` ten
billion, `accumulationRate` 20, 60 months, areas 150000 and 84.9) yields
`periodTargetAmount` two billion and the three derived quotients. -/
theorem calculate_formula_correct_witness :
    calculate rateExample = some
      { monthlyTotalTarget := 100000000 / 3, monthlyRatePerSqm := 2000 / 9,
        householdMonthlyFee := 56600 / 3, periodTargetAmount := 2000000000 } := by
  rw [calculate_formula_correct rateExample (by decide) (by decide) (by decide)
      (by decide) (by decide)]
  decide

/-- C2: whenever any single precondition fails (`durationMonths ≤ 0`,
`totalComplexArea ≤ 0`, `householdArea ≤ 0`, in RATE mode
`totalRepairCost ≤ 0` or `accumulationRate ≤ 0`, in AMOUNT mode
`periodAmount ≤ 0`), the derivation returns absence (`none`), never an
exception, regardless of the other fields. -/
theorem calculate_insufficient_absent (i : CalculationInputs)
    (h : i.durationMonths ≤ 0 ∨ i.totalComplexArea ≤ 0 ∨ i.householdArea ≤ 0
       ∨ (i.mode = .RATE ∧ (i.totalRepairCost ≤ 0 ∨ i.accumulationRate ≤ 0))
       ∨ (i.mode = .AMOUNT ∧ i.periodAmount ≤ 0)) :
    calculate i = none :=
  calculate_none_spec i h

/-- Witness for C2: the spec's insufficiency example, `householdArea = 0`
with every other field of the RATE example valid, yields absence. -/
theorem calculate_insufficient_absent_witness :
    calculate { rateExample with householdArea := 0 } = none :=
  calculate_insufficient_absent { rateExample with householdArea := 0 }
    (Or.inr (Or.inr (Or.inl (by decide))))

/-- Helper: a range-boundary edit always resolves to some pair of years
`s ≤ e` stored in `startYear`/`endYear`, with `durationMonths` recomputed
as `(e - s + 1) * 12`. -/
lemma rangeChange_resolves (cy : Int) (prev : CalculationInputs)
    (side : RangeSide) (year : Int) :
    ∃ s e : Int, s ≤ e ∧
      (handlePeriodRangeChange cy prev side year).startYear = some s ∧
      (handlePeriodRangeChange cy prev side year).endYear = some e ∧
      (handlePeriodRangeChange cy prev side year).durationMonths
        = ((e - s + 1 : Int) : ℚ) * 12 := by
  cases side
  · dsimp only [handlePeriodRangeChange]
    split
    next h => exact ⟨year, year, le_refl _, rfl, rfl, rfl⟩
    next h =>
      exact ⟨year, orYear prev.endYear (orYear prev.startYear cy), by omega,
        rfl, rfl, rfl⟩
  · dsimp only [handlePeriodRangeChange]
    split
    next h => exact ⟨year, year, le_refl _, rfl, rfl, rfl⟩
    next h =>
      exact ⟨orYear prev.startYear cy, year, by omega, rfl, rfl, rfl⟩

/-- Helper: `12 ≤ ((e - s + 1 : ℤ) : ℚ) * 12` whenever `s ≤ e`. -/
lemma twelve_le_cast_mul {s e : Int} (h : s ≤ e) :
    (12 : ℚ) ≤ ((e - s + 1 : Int) : ℚ) * 12 := by
  have h1 : (1 : ℚ) ≤ ((e - s + 1 : Int) : ℚ) := by
    exact_mod_cast (by omega : (1 : Int) ≤ e - s + 1)
  nlinarith

/-- Helper: the recomputed duration after any range-boundary edit is at
least 12. -/
lemma rangeChange_duration_ge_twelve (cy : Int) (prev : CalculationInputs)
    (side : RangeSide) (year : Int) :
    12 ≤ (handlePeriodRangeChange cy prev side year).durationMonths := by
  obtain ⟨s, e, hle, _, _, hdur⟩ := rangeChange_resolves cy prev side year
  rw [hdur]
  exact twelve_le_cast_mul hle

/-- Helper: a range-boundary edit only touches the period fields; the mode
and cost/area fields pass through unchanged. -/
lemma rangeChange_preserves_other_fields (cy : Int) (prev : CalculationInputs)
    (side : RangeSide) (year : Int) :
    (handlePeriodRangeChange cy prev side year).mode = prev.mode ∧
    (handlePeriodRangeChange cy prev side year).periodAmount = prev.periodAmount ∧
    (handlePeriodRangeChange cy prev side year).totalRepairCost = prev.totalRepairCost ∧
    (handlePeriodRangeChange cy prev side year).accumulationRate = prev.accumulationRate ∧
    (handlePeriodRangeChange cy prev side year).totalComplexArea = prev.totalComplexArea ∧
    (handlePeriodRangeChange cy prev side year).householdArea = prev.householdArea :=
  ⟨rfl, rfl, rfl, rfl, rfl, rfl⟩

/-- C3: every range-boundary edit stores some resolved pair of years and
recomputes `durationMonths = (endYear - startYear + 1) * 12` exactly,
overriding the previous duration; in particular the resolved range
2025-2030 yields 72 months. -/
theorem rangeEdit_recomputes_duration :
    (∀ (cy : Int) (prev : CalculationInputs) (side : RangeSide) (year : Int),
      ∃ s e : Int,
        (handlePeriodRangeChange cy prev side year).startYear = some s ∧
        (handlePeriodRangeChange cy prev side year).endYear = some e ∧
        (handlePeriodRangeChange cy prev side year).durationMonths
          = ((e - s + 1 : Int) : ℚ) * 12) ∧
    (handlePeriodRangeChange 2025 rangeExample .stop 2030).startYear = some 2025 ∧
    (handlePeriodRangeChange 2025 rangeExample .stop 2030).endYear = some 2030 ∧
    (handlePeriodRangeChange 2025 rangeExample .stop 2030).durationMonths = 72 := by
  refine ⟨?_, by decide, by decide, by decide⟩
  intro cy prev side year
  obtain ⟨s, e, _, hs, he, hdur⟩ := rangeChange_resolves cy prev side year
  exact ⟨s, e, hs, he, hdur⟩

/-- C4: after every range-boundary edit the invariant `startYear ≤ endYear`
holds; an edit pushing one boundary past the other pulls the other boundary
to the edited year instead of being rejected, so editing start to 2032 with
end 2030 collapses the range to 2032-2032 and 12 months. -/
theorem rangeEdit_invariant_start_le_end :
    (∀ (cy : Int) (prev : CalculationInputs) (side : RangeSide) (year : Int),
      ∃ s e : Int, s ≤ e ∧
        (handlePeriodRangeChange cy prev side year).startYear = some s ∧
        (handlePeriodRangeChange cy prev side year).endYear = some e) ∧
    (∀ (cy : Int) (prev : CalculationInputs) (year : Int),
      orYear prev.endYear (orYear prev.startYear cy) < year →
        (handlePeriodRangeChange cy prev .start year).endYear = some year ∧
        (handlePeriodRangeChange cy prev .start year).startYear = some year) ∧
    (∀ (cy : Int) (prev : CalculationInputs) (year : Int),
      year < orYear prev.startYear cy →
        (handlePeriodRangeChange cy prev .stop year).startYear = some year ∧
        (handlePeriodRangeChange cy prev .stop year).endYear = some year) ∧
    (handlePeriodRangeChange 2025 rangeExample .start 2032).startYear = some 2032 ∧
    (handlePeriodRangeChange 2025 rangeExample .start 2032).endYear = some 2032 ∧
    (handlePeriodRangeChange 2025 rangeExample .start 2032).durationMonths = 12 := by
  refine ⟨?_, ?_, ?_, by decide, by decide, by decide⟩
  · intro cy prev side year
    obtain ⟨s, e, hle, hs, he, _⟩ := rangeChange_resolves cy prev side year
    exact ⟨s, e, hle, hs, he⟩
  · intro cy prev year h
    dsimp only [handlePeriodRangeChange]
    rw [if_pos (by omega : year > orYear prev.endYear (orYear prev.startYear cy))]
    exact ⟨rfl, rfl⟩
  · intro cy prev year h
    dsimp only [handlePeriodRangeChange]
    rw [if_pos h]
    exact ⟨rfl, rfl⟩

/-- Witness for C4: editing the end year down to 2020 on the 2025-2030
example pulls the start year down to 2020 as well. -/
theorem rangeEdit_invariant_start_le_end_witness :
    (handlePeriodRangeChange 2025 rangeExample .stop 2020).startYear = some 2020 ∧
    (handlePeriodRangeChange 2025 rangeExample .stop 2020).endYear = some 2020 :=
  rangeEdit_invariant_start_le_end.2.2.1 2025 rangeExample 2020 (by decide)

/-- C10: after every range-boundary edit, whatever years (including 0) are
entered, `durationMonths` is at least 12 and an exact positive whole-year
multiple of 12. -/
theorem rangeEdit_duration_year_multiple :
    ∀ (cy : Int) (prev : CalculationInputs) (side : RangeSide) (year : Int),
      12 ≤ (handlePeriodRangeChange cy prev side year).durationMonths ∧
      ∃ k : Int, 1 ≤ k ∧
        (handlePeriodRangeChange cy prev side year).durationMonths
          = 12 * (k : ℚ) := by
  intro cy prev side year
  obtain ⟨s, e, hle, _, _, hdur⟩ := rangeChange_resolves cy prev side year
  refine ⟨rangeChange_duration_ge_twelve cy prev side year, e - s + 1, by omega, ?_⟩
  rw [hdur]
  push_cast
  ring

/-- C5: a duration edit stores the edited value exactly (no rounding of the
value itself) and leaves `startYear` unchanged; when `startYear` is set (a
truthy year `s`), `endYear` becomes `s + max 1 (round (v / 12)) - 1`. The
sync is lossy for durations not divisible by 12: editing 65 months with
start year 2025 gives end year 2029, and re-deriving the duration from that
range gives 60, not 65. -/
theorem durationEdit_value_and_endYear_sync :
    (∀ (prev : CalculationInputs) (v : ℚ),
      (handleInputChange prev (.durationMonths v)).durationMonths = v ∧
      (handleInputChange prev (.durationMonths v)).startYear = prev.startYear ∧
      ∀ s : Int, prev.startYear = some s → s ≠ 0 →
        (handleInputChange prev (.durationMonths v)).endYear
          = some (s + max 1 (jsRound (v / 12)) - 1)) ∧
    (handleInputChange rateExample (.durationMonths 65)).durationMonths = 65 ∧
    (handleInputChange rateExample (.durationMonths 65)).endYear = some 2029 ∧
    (handlePeriodRangeChange 2025
        (handleInputChange rateExample (.durationMonths 65)) .stop 2029).durationMonths
      = 60 := by
  refine ⟨?_, by decide, by decide, by decide⟩
  intro prev v
  refine ⟨?_, ?_, ?_⟩
  · dsimp only [handleInputChange]
    split <;> rfl
  · dsimp only [handleInputChange]
    split <;> rfl
  · intro s hs hns
    have ht : jsTruthy prev.startYear = true := by
      rw [hs]
      simp [jsTruthy, hns]
    dsimp only [handleInputChange]
    rw [if_pos ht]
    simp [hs]

/-- Witness for C5: applying the duration-edit sync at the spec example,
start year 2025 with new duration 65 months. -/
theorem durationEdit_value_and_endYear_sync_witness :
    (handleInputChange rateExample (.durationMonths 65)).endYear
      = some (2025 + max 1 (jsRound (65 / 12)) - 1) :=
  (durationEdit_value_and_endYear_sync.1 rateExample 65).2.2 2025 rfl (by decide)

/-- Counterexample for C6: editing a period-range boundary to 0 (blank)
does not make the derivation report not computable. On the valid 2025-2030
RATE example, editing the end year to 0, or the start year to 0, still
yields a present result (the range edit recomputes a positive duration). -/
theorem blankYearEdit_not_absent_cex :
    (calculate (handlePeriodRangeChange 2025 rangeExample .stop 0)).isSome = true ∧
    (calculate (handlePeriodRangeChange 2025 rangeExample .start 0)).isSome = true := by
  constructor <;> decide

/-- C6 amended: editing either period-range boundary to 0 (blank) still
yields a consistent state whose `durationMonths` is at least 12, so when
the area and mode-specific cost preconditions hold the derivation still
produces a result — absence is not triggered by a blank year boundary. -/
theorem blankYearEdit_still_computable (cy : Int) (prev : CalculationInputs)
    (side : RangeSide)
    (ha : 0 < prev.totalComplexArea) (hh : 0 < prev.householdArea)
    (hr : prev.mode = .RATE → 0 < prev.totalRepairCost ∧ 0 < prev.accumulationRate)
    (hp : prev.mode = .AMOUNT → 0 < prev.periodAmount) :
    12 ≤ (handlePeriodRangeChange cy prev side 0).durationMonths ∧
    (calculate (handlePeriodRangeChange cy prev side 0)).isSome = true := by
  have h12 := rangeChange_duration_ge_twelve cy prev side 0
  refine ⟨h12, ?_⟩
  rw [calculate_spec _ (lt_of_lt_of_le (by norm_num) h12) ha hh hr hp]
  rfl

/-- Witness for C6 amended: blanking the start year of the valid 2025-2030
RATE example keeps the result present. -/
theorem blankYearEdit_still_computable_witness :
    12 ≤ (handlePeriodRangeChange 2025 rangeExample .start 0).durationMonths ∧
    (calculate (handlePeriodRangeChange 2025 rangeExample .start 0)).isSome = true :=
  blankYearEdit_still_computable 2025 rangeExample .start (by decide) (by decide)
    (by decide) (by decide)

/-- Counterexample for C7: a successful lookup-collaborator response does
change the `CalculationInputs` record — a found response with positive
areas is written into `totalComplexArea`/`householdArea`. -/
theorem searchSuccess_mutates_inputs_cex :
    applySearchResponse blankAreasExample
      { totalArea := 150000, householdArea := 849 / 10, found := true, sources := [] }
      ≠ blankAreasExample := by
  decide

/-- C7 amended: the advice collaborator is strictly downstream — processing
its response, success or failure, leaves the inputs and the derived result
unchanged; the lookup collaborator leaves the inputs unchanged on failure
or not-found, but a successful lookup with positive areas does write them
into the inputs (it feeds the derivation rather than consuming it). -/
theorem collaborator_frame_amended (s : AppState) (r : Except String String)
    (i : CalculationInputs) (rs : SearchResponse) (hnf : rs.found = false) :
    (applyAdviceResponse s r).inputs = s.inputs ∧
    (applyAdviceResponse s r).result = s.result ∧
    applySearchResponse i rs = i := by
  refine ⟨?_, ?_, ?_⟩
  · cases r <;> rfl
  · cases r <;> rfl
  · simp [applySearchResponse, hnf]

/-- Witness for C7 amended: a failed advice call and a not-found lookup on
the RATE example leave the state untouched. -/
theorem collaborator_frame_amended_witness :
    (applyAdviceResponse exampleAppState (.error "network")).inputs
      = exampleAppState.inputs ∧
    applySearchResponse rateExample
      { totalArea := 0, householdArea := 0, found := false, sources := [] }
      = rateExample := by
  have h := collaborator_frame_amended exampleAppState (.error "network") rateExample
    { totalArea := 0, householdArea := 0, found := false, sources := [] } rfl
  exact ⟨h.1, h.2.2⟩

/-- C8: a mode switch is a pure field assignment — the new state differs
from the old only in the switched field, so switching the cost-basis mode
from RATE to AMOUNT and back preserves `totalRepairCost`,
`accumulationRate` and `periodAmount` untouched. -/
theorem modeSwitch_pure_assignment :
    (∀ (i : CalculationInputs) (m : CalculationMode),
      handleInputChange i (.mode m) = { i with mode := m }) ∧
    (∀ (i : CalculationInputs) (p : PeriodInputMode),
      handleInputChange i (.periodInputMode p) = { i with periodInputMode := p }) ∧
    (∀ i : CalculationInputs,
      handleInputChange (handleInputChange i (.mode .AMOUNT)) (.mode .RATE)
        = { i with mode := .RATE } ∧
      (handleInputChange (handleInputChange i (.mode .AMOUNT)) (.mode .RATE)).totalRepairCost
        = i.totalRepairCost ∧
      (handleInputChange (handleInputChange i (.mode .AMOUNT)) (.mode .RATE)).accumulationRate
        = i.accumulationRate ∧
      (handleInputChange (handleInputChange i (.mode .AMOUNT)) (.mode .RATE)).periodAmount
        = i.periodAmount) :=
  ⟨fun _ _ => rfl, fun _ _ => rfl, fun _ => ⟨rfl, rfl, rfl, rfl⟩⟩

/-- C9: mode equivalence — two precondition-satisfying states agreeing on
duration and areas, one in RATE mode and one in AMOUNT mode whose
`periodAmount` equals the other's `totalRepairCost * (accumulationRate /
100)`, derive identical results. -/
theorem mode_equivalence_rate_amount (i j : CalculationInputs)
    (him : i.mode = .RATE) (hjm : j.mode = .AMOUNT)
    (hdm : j.durationMonths = i.durationMonths)
    (hta : j.totalComplexArea = i.totalComplexArea)
    (hha : j.householdArea = i.householdArea)
    (hpa : j.periodAmount = i.totalRepairCost * (i.accumulationRate / 100))
    (hd : 0 < i.durationMonths) (ha : 0 < i.totalComplexArea)
    (hh : 0 < i.householdArea)
    (hc : 0 < i.totalRepairCost) (hrt : 0 < i.accumulationRate) :
    calculate i = calculate j := by
  have hpt : periodTarget j = periodTarget i := by
    simp [periodTarget, him, hjm, hpa]
  rw [calculate_spec i hd ha hh (fun _ => ⟨hc, hrt⟩)
        (fun hm => absurd (him.symm.trans hm) (by decide)),
      calculate_spec j (hdm ▸ hd) (hta ▸ ha) (hha ▸ hh)
        (fun hm => absurd (hjm.symm.trans hm) (by decide))
        (fun _ => by
          rw [hpa]
          exact mul_pos hc (div_pos hrt (by norm_num))),
      hpt, hdm, hta, hha]

/-- Witness for C9: the spec's AMOUNT-mode example (`periodAmount` two
billion with the RATE example's period and areas) derives the same result
as the RATE example. -/
theorem mode_equivalence_rate_amount_witness :
    calculate rateExample = calculate amountExample :=
  mode_equivalence_rate_amount rateExample amountExample rfl rfl rfl rfl rfl
    (by decide) (by decide) (by decide) (by decide) (by decide) (by decide)

end Theorems
